import Mathlib

/-!
Verification of the SPA router in `src/js/router.js` (class `Router`).

The router is shallowly embedded: the mutable fields of a `Router` instance
become a `RouterState` record, the JS `Map` becomes an insertion-ordered
association list, and `async navigate` becomes a fuel-indexed state-passing
function.  Dynamic behaviour that lives in user-supplied callbacks (global
`beforeRoute` listeners, per-route `beforeEnter` guards, route handlers) is
supplied by an oracle record `NavEnv`; DOM side effects (URL updates, handler
invocation, dispatched events, reported errors) are recorded in a `NavTrace`.
Exceptions thrown by the DOM-touching navigation steps are modelled by an
injection point `NavEnv.throwAt`; steps whose exceptions the source swallows
internally (`runBeforeListeners`, `runGuard`, `executeRoute`,
`runAfterListeners`) are modelled through their observable outcome instead.

JS strings are modelled as Lean `String`s with ASCII semantics for
`toLowerCase` / `trim` (the route names this code handles are ASCII); JS
numbers arising from the division in `calculateSimilarity` are modelled as `ℚ`,
which is exact for the small integer ratios produced here.
-/

/-- ASCII model of JavaScript `String.prototype.toLowerCase` (router.js uses it
on route names, lines 89, 100, 111, 738). -/
def jsToLower (s : String) : String :=
  String.mk (s.data.map Char.toLower)

/-- ASCII model of JavaScript `String.prototype.trim`: drop whitespace from
both ends (router.js line 738). -/
def jsTrim (s : String) : String :=
  String.mk (((s.data.dropWhile Char.isWhitespace).reverse.dropWhile Char.isWhitespace).reverse)

/-- Insertion-ordered association list standing for a JS `Map`: `Map.set`
overwrites in place when the key exists, else appends. -/
def mapSet {α : Type} (m : List (String × α)) (k : String) (v : α) : List (String × α) :=
  if m.any (fun p => p.1 = k) then
    m.map (fun p => if p.1 = k then (k, v) else p)
  else
    m ++ [(k, v)]

/-- JS `Map.get`: first entry with the key, if any. -/
def mapGet {α : Type} (m : List (String × α)) (k : String) : Option α :=
  (m.find? (fun p => p.1 = k)).map Prod.snd

/-- JS `Map.has`. -/
def mapHas {α : Type} (m : List (String × α)) (k : String) : Bool :=
  m.any (fun p => p.1 = k)

/-- JS `Map.delete`: remove the (unique) entry with the key, preserving order. -/
def mapEraseKey {α : Type} (m : List (String × α)) (k : String) : List (String × α) :=
  m.eraseP (fun p => p.1 = k)

/-- Route record built by `Router.addRoute` (router.js lines 88-98).  The
`handler`, `beforeEnter` and `afterEnter` callbacks are functions in the
source; the embedding keeps only whether the optional guards are present
(their dynamic behaviour is an oracle in `NavEnv`), and drops the opaque
`data` payload, which the router never reads. -/
structure Route where
  path : String
  title : String
  meta : List (String × String)
  hasBeforeEnter : Bool
  hasAfterEnter : Bool
  cache : Bool
  transition : String
deriving DecidableEq, Repr

/-- Options object accepted by `Router.addRoute` (router.js lines 91-97).
`title = some ""` models passing an empty string, which is falsy in JS. -/
structure RouteOptions where
  title : Option String := none
  meta : List (String × String) := []
  beforeEnter : Bool := false
  afterEnter : Bool := false
  cache : Option Bool := none
  transition : Option String := none
deriving DecidableEq, Repr

/-- Entry pushed by `Router.addToHistory` (router.js lines 531-535). -/
structure HistoryEntry where
  path : String
  route : String
  timestamp : Nat
deriving DecidableEq, Repr

/-- Value stored by `Router.trackNavigation` (router.js lines 679-683). -/
structure NavMetric where
  duration : Nat
  timestamp : Nat
  count : Nat
deriving DecidableEq, Repr

/-- Mutable fields of a `Router` instance together with the configuration
entries the navigation logic reads (router.js constructor, lines 13-48). -/
structure RouterState where
  routes : List (String × Route)
  currentRoute : Option String
  previousRoute : Option String
  isNavigating : Bool
  history : List HistoryEntry
  navigationMetrics : List (String × NavMetric)
  defaultRoute : String
  enableTransitions : Bool
  enableAnalytics : Bool
deriving DecidableEq, Repr

/-- Constructor state of `new Router()` with the default configuration
(router.js lines 13-42). -/
def initialRouter : RouterState :=
  { routes := []
    currentRoute := none
    previousRoute := none
    isNavigating := false
    history := []
    navigationMetrics := []
    defaultRoute := "home"
    enableTransitions := true
    enableAnalytics := false }

/-- Bound set by `this.maxHistoryLength = 50` (router.js line 39). -/
def maxHistoryLength : Nat := 50

/-- Model of `Router.normalizePath` (router.js lines 737-739):
`path ? path.toLowerCase().trim() : this.config.defaultRoute`.
`none` stands for a `null`/`undefined` argument; the empty string is falsy
in JS, so it too falls back to the default route. -/
def normalizePath (defaultRoute : String) (path : Option String) : String :=
  match path with
  | none => defaultRoute
  | some p => if p = "" then defaultRoute else jsTrim (jsToLower p)

/-- Model of `Router.formatTitle` (router.js lines 741-743): uppercase the
first character and replace dashes/underscores in the rest with spaces. -/
def formatTitle (path : String) : String :=
  match path.data with
  | [] => ""
  | c :: rest => String.mk (c.toUpper :: rest.map (fun ch => if ch = '-' ∨ ch = '_' then ' ' else ch))

/-- Model of `Router.addRoute` (router.js lines 83-104): build the route
record and key it by the lowercased (not trimmed) path.  The type-check
throw on line 84 cannot fire in the embedding, where `path` is a string and
the handler is tracked abstractly. -/
def addRoute (s : RouterState) (path : String) (opts : RouteOptions) : RouterState :=
  let route : Route :=
    { path := jsToLower path
      title := match opts.title with
        | some t => if t = "" then formatTitle path else t
        | none => formatTitle path
      meta := opts.meta
      hasBeforeEnter := opts.beforeEnter
      hasAfterEnter := opts.afterEnter
      cache := opts.cache ≠ some false
      transition := match opts.transition with
        | some t => if t = "" then "fade" else t
        | none => "fade" }
  { s with routes := mapSet s.routes (jsToLower path) route }

/-- Model of `Router.removeRoute` (router.js lines 110-116). -/
def removeRoute (s : RouterState) (path : String) : Bool × RouterState :=
  if mapHas s.routes (jsToLower path) then
    (true, { s with routes := mapEraseKey s.routes (jsToLower path) })
  else
    (false, s)

/-- Model of `Router.hasRoute` (router.js lines 290-292): look the normalized
path up in the route table. -/
def hasRoute (s : RouterState) (path : Option String) : Bool :=
  mapHas s.routes (normalizePath s.defaultRoute path)

/-- Model of `Router.addToHistory` (router.js lines 525-541): skip when the
path equals the most recent entry, else push and, if the bound is exceeded,
shift the oldest entry off the front. -/
def addToHistory (s : RouterState) (path : String) (route : Route) (now : Nat) : RouterState :=
  if s.history.getLast?.map HistoryEntry.path = some path then
    s
  else
    let pushed := s.history ++ [({ path := path, route := route.title, timestamp := now } : HistoryEntry)]
    { s with history := if pushed.length > maxHistoryLength then pushed.tail else pushed }

/-- Model of `Router.trackNavigation` (router.js lines 678-686). -/
def trackNavigation (s : RouterState) (path : String) (duration now : Nat) : RouterState :=
  let prevCount := ((mapGet s.navigationMetrics path).map NavMetric.count).getD 0
  let metric : NavMetric := { duration := duration, timestamp := now, count := prevCount + 1 }
  { s with navigationMetrics := mapSet s.navigationMetrics path metric }

/-- One cell of the Levenshtein recurrence for a fixed extra head character
`x`: given the distance function `levxs` of the tail, compute the distance
function of `x :: xs`.  This is the column-wise reading of the DP matrix
built by `Router.calculateEditDistance` (router.js lines 637-663): the
`min` lists the diagonal, left and upper neighbours in the order of the source. -/
def levCons (x : Char) (levxs : List Char → Nat) : List Char → Nat
  | [] => levxs [] + 1
  | y :: ys =>
    if x = y then levxs ys
    else min (levxs ys + 1) (min (levCons x levxs ys + 1) (levxs (y :: ys) + 1))

/-- Levenshtein distance between two character lists, the function the DP
matrix of `Router.calculateEditDistance` tabulates: matrix cell `[i][j]`
holds `lev (str2.take i) (str1.take j)` with this orientation. -/
def lev : List Char → List Char → Nat
  | [] => fun ys => ys.length
  | x :: xs => levCons x (lev xs)

/-- Model of `Router.calculateEditDistance` (router.js lines 637-663): the
returned cell `matrix[str2.length][str1.length]` is the distance between
`str2` and `str1`. -/
def calculateEditDistance (str1 str2 : String) : Nat :=
  lev str2.data str1.data

/-- Model of `Router.calculateSimilarity` (router.js lines 624-632).  The JS
float division is modelled in `ℚ`, exact for these small integer ratios. -/
def calculateSimilarity (str1 str2 : String) : ℚ :=
  let longer := if str1.length > str2.length then str1 else str2
  let shorter := if str1.length > str2.length then str2 else str1
  if longer.length = 0 then 1
  else ((longer.length : ℚ) - (calculateEditDistance longer shorter : ℚ)) / (longer.length : ℚ)

/-- Fold step of the `forEach` in `Router.findSimilarRoute` (router.js lines
610-616): keep the best-scoring route among those scoring strictly above
both the best so far and the 0.6 threshold. -/
def findSimilarRouteGo (path : String) : List String → Option String × ℚ → Option String × ℚ
  | [], acc => acc
  | r :: rest, acc =>
    let score := calculateSimilarity path r
    findSimilarRouteGo path rest
      (if score > acc.2 ∧ score > (6 : ℚ) / 10 then (some r, score) else acc)

/-- Model of `Router.findSimilarRoute` (router.js lines 605-619), iterating
over the registered route keys in insertion order. -/
def findSimilarRoute (routeKeys : List String) (path : String) : Option String :=
  (findSimilarRouteGo path routeKeys (none, 0)).1

/-- Observable outcome of one user callback (a global `beforeRoute` listener
or a `beforeEnter` guard): it returned `false`, returned anything else, or
threw. -/
inductive CbOutcome where
  | retFalse
  | retOther
  | throws
deriving DecidableEq, Repr

/-- Model of `Router.runBeforeListeners` (router.js lines 546-558): walk
the listeners in order, abort on the first `false` result; a throwing
listener is caught and skipped. -/
def runBeforeListeners : List CbOutcome → Bool
  | [] => true
  | o :: rest => if o = CbOutcome.retFalse then false else runBeforeListeners rest

/-- Model of `Router.runGuard` (router.js lines 576-583) composed with the
`=== false` test at its call sites: a guard that returns `false` or throws
vetoes, every other return value passes. -/
def runGuard : CbOutcome → Bool
  | CbOutcome.retFalse => false
  | CbOutcome.retOther => true
  | CbOutcome.throws => false

/-- Options object accepted by `Router.navigate` (the fields it reads:
lines 142, 168, 179, 193). -/
structure NavOptions where
  force : Bool := false
  fromHashChange : Bool := false
  skipTransition : Bool := false
  skipScroll : Bool := false
deriving DecidableEq, Repr

/-- Numbering of the navigation steps at which an uncaught exception can
reach the catch block of `navigate` itself (the remaining steps swallow exceptions
internally). -/
def stepUpdateURL : Nat := 0

/-- Step number of `handleTransition` (router.js line 180). -/
def stepTransition : Nat := 1

/-- Step number of `updatePageMeta` (router.js line 187). -/
def stepUpdatePageMeta : Nat := 2

/-- Step number of `updateNavigationState` (router.js line 190). -/
def stepUpdateNavigationState : Nat := 3

/-- Step number of `scrollToSection` (router.js line 194). -/
def stepScrollToSection : Nat := 4

/-- Step number of `trackNavigation` (router.js line 207). -/
def stepTrackNavigation : Nat := 5

/-- Step number of `trackPageView` (router.js line 211). -/
def stepTrackPageView : Nat := 6

/-- Step number of the final `dispatchEvent` (router.js line 217). -/
def stepDispatchNavigated : Nat := 7

/-- Oracle for the dynamic behaviour one `navigate` call observes: the
results of the registered global before-listeners, of the target route
`beforeEnter` guard, whether the route handler throws (caught on line 424),
an optional step at which a DOM-touching step throws, and the clock values
`Date.now()` / `performance.now()` deliver.  After-listeners and the
`afterEnter` hook are absent because the source ignores their results and
swallows their exceptions (lines 563-583), so they have no observable
effect on state or result. -/
structure NavEnv where
  beforeListeners : List CbOutcome := []
  beforeEnterOutcome : CbOutcome := CbOutcome.retOther
  handlerThrows : Bool := false
  throwAt : Option Nat := none
  now : Nat := 0
  duration : Nat := 0
deriving DecidableEq, Repr

/-- DOM-visible effects of one `navigate` call: whether the URL was pushed,
whether the route handler was invoked, which events were dispatched, and
which `handleError` categories were reported. -/
structure NavTrace where
  urlUpdated : Bool := false
  handlerInvoked : Bool := false
  events : List String := []
  errors : List String := []
deriving DecidableEq, Repr

/-- Model of `Router.handleNotFound` (router.js lines 588-600),
parameterised by the function `nav` used for its recursive `navigate`
calls: try the fuzzy match, else fall back to the default route.  A `none`
(null) path makes `calculateSimilarity` dereference `null.length`, raising
a TypeError that the catch in `navigate` converts into a `false` return —
unless the route table is empty, in which case the `forEach` body never
runs. -/
def handleNotFound
    (nav : RouterState → Option String → NavOptions → NavEnv → Bool × RouterState × NavTrace)
    (s : RouterState) (path : Option String) (env : NavEnv) :
    Bool × RouterState × NavTrace :=
  match path with
  | none =>
    if s.routes.isEmpty then
      nav s (some s.defaultRoute) {} env
    else
      (false, s, { errors := ["navigation"] })
  | some p =>
    match findSimilarRoute (s.routes.map Prod.fst) p with
    | some similar => nav s (some similar) {} env
    | none => nav s (some s.defaultRoute) {} env

/-- Steps of `Router.navigate` from the URL update to the final event
dispatch (router.js lines 167-223), on the state `s1` in which
`previousRoute` has already been stored.  Each exception-injection branch
returns what the `catch` block produces: `false` plus a `handleError`
report. -/
def navigateSteps (s1 : RouterState) (route : Route) (normalizedPath : String)
    (opts : NavOptions) (env : NavEnv) : Bool × RouterState × NavTrace :=
  if opts.fromHashChange = false ∧ env.throwAt = some stepUpdateURL then
    (false, s1, { errors := ["navigation"] })
  else
  let tr1 : NavTrace := { urlUpdated := opts.fromHashChange = false }
  let s2 := { s1 with currentRoute := some normalizedPath }
  let s3 := addToHistory s2 normalizedPath route env.now
  if s3.enableTransitions ∧ opts.skipTransition = false ∧ env.throwAt = some stepTransition then
    (false, s3, { tr1 with errors := ["navigation"] })
  else
  let tr2 : NavTrace :=
    { tr1 with handlerInvoked := true
               errors := if env.handlerThrows then ["handler"] else [] }
  if env.throwAt = some stepUpdatePageMeta then
    (false, s3, { tr2 with errors := tr2.errors ++ ["navigation"] })
  else if env.throwAt = some stepUpdateNavigationState then
    (false, s3, { tr2 with errors := tr2.errors ++ ["navigation"] })
  else if opts.skipScroll = false ∧ env.throwAt = some stepScrollToSection then
    (false, s3, { tr2 with errors := tr2.errors ++ ["navigation"] })
  else if env.throwAt = some stepTrackNavigation then
    (false, s3, { tr2 with errors := tr2.errors ++ ["navigation"] })
  else
  let s4 := trackNavigation s3 normalizedPath env.duration env.now
  if s4.enableAnalytics ∧ env.throwAt = some stepTrackPageView then
    (false, s4, { tr2 with errors := tr2.errors ++ ["navigation"] })
  else
  let tr3 : NavTrace :=
    { tr2 with events := if s4.enableAnalytics then ["router:pageview"] else [] }
  if env.throwAt = some stepDispatchNavigated then
    (false, s4, { tr3 with errors := tr3.errors ++ ["navigation"] })
  else
    (true, s4, { tr3 with events := tr3.events ++ ["router:navigated"] })

/-- Found-route part of `Router.navigate` (router.js lines 141-165): the
same-route short-circuit, the `previousRoute` store, and the two veto
points, then the remaining steps. -/
def navigateFound (s : RouterState) (route : Route) (normalizedPath : String)
    (opts : NavOptions) (env : NavEnv) : Bool × RouterState × NavTrace :=
  if s.currentRoute = some normalizedPath ∧ opts.force = false then
    (true, { s with isNavigating := false }, {})
  else
    let s1 := { s with previousRoute := s.currentRoute }
    if runBeforeListeners env.beforeListeners = false then
      (false, { s1 with isNavigating := false }, {})
    else if route.hasBeforeEnter ∧ runGuard env.beforeEnterOutcome = false then
      (false, { s1 with isNavigating := false }, {})
    else
      navigateSteps s1 route normalizedPath opts env

/-- Body of the `try`/`catch` of `Router.navigate` (router.js lines 132-228):
normalize, look up, and dispatch to `handleNotFound` or the found-route
steps.  The `finally` is applied by the wrapper `navigate`. -/
def navigateTry
    (nav : RouterState → Option String → NavOptions → NavEnv → Bool × RouterState × NavTrace)
    (s : RouterState) (path : Option String) (opts : NavOptions) (env : NavEnv) :
    Bool × RouterState × NavTrace :=
  let normalizedPath := normalizePath s.defaultRoute path
  match mapGet s.routes normalizedPath with
  | none => handleNotFound nav s path env
  | some route => navigateFound s route normalizedPath opts env

/-- Model of `Router.navigate` (router.js lines 123-232).  The fuel bounds
the recursion depth through `handleNotFound`; in the source that recursion
is immediately cut off by the `isNavigating` guard, so any positive fuel is
faithful.  The wrapper mirrors the re-entrancy rejection (lines 124-127),
the `isNavigating = true` assignment (line 130) and the `finally` block
(lines 229-231), which clears the flag on every path out of the body. -/
def navigate : Nat → RouterState → Option String → NavOptions → NavEnv → Bool × RouterState × NavTrace
  | 0, s, _, _, _ => (false, s, {})
  | fuel + 1, s, path, opts, env =>
    if s.isNavigating then
      (false, s, {})
    else
      let r := navigateTry (fun s' p' o' e' => navigate fuel s' p' o' e')
        { s with isNavigating := true } path opts env
      (r.1, { r.2.1 with isNavigating := false }, r.2.2)

/-- Demonstration instance: the three routes of the spec examples
registered on a fresh router. -/
def demoRouter : RouterState :=
  addRoute (addRoute (addRoute initialRouter "home" {}) "about" {}) "contact" {}

/-- Route record that `addRoute initialRouter "home" {}` stores. -/
def demoHomeRoute : Route :=
  { path := "home", title := "Home", meta := [], hasBeforeEnter := false,
    hasAfterEnter := false, cache := true, transition := "fade" }

/-- Route record that registering `contact` stores. -/
def demoContactRoute : Route :=
  { path := "contact", title := "Contact", meta := [], hasBeforeEnter := false,
    hasAfterEnter := false, cache := true, transition := "fade" }

/-- Demonstration instance with a navigation marked in flight. -/
def demoBusyRouter : RouterState :=
  { demoRouter with isNavigating := true }

/-- Demonstration instance after navigating to `home`. -/
def demoHomeRouter : RouterState :=
  (navigate 2 demoRouter (some "home") {} {}).2.1

/-- Demonstration instance after navigating to `home` and then `about`:
`currentRoute` is `about` and `previousRoute` is `home`. -/
def demoAboutRouter : RouterState :=
  (navigate 2 demoHomeRouter (some "about") {} {}).2.1

/-- Demonstration instance in which the current route has been removed from
the route table: register `home`, navigate to it, then `removeRoute` it. -/
def demoRemovedRouter : RouterState :=
  (removeRoute (navigate 2 (addRoute initialRouter "home" {}) (some "home") {} {}).2.1 "home").2

/-- Demonstration instance whose bounded history list is exactly full. -/
def demoFullHistoryRouter : RouterState :=
  { demoRouter with
    history := List.replicate maxHistoryLength
      ({ path := "old", route := "Old", timestamp := 0 } : HistoryEntry) }
/-- Record-update round trip: writing back the value a Boolean field already
has is the identity. -/
theorem setNavigatingFalse_eq (s : RouterState) (h : s.isNavigating = false) :
    { s with isNavigating := false } = s := by
  cases s
  simp_all

/-- Re-entrancy guard (router.js lines 124-127): a `navigate` call on a state
already marked as navigating returns `false` at once, with no state change
and no effect. -/
theorem navigate_busy (fuel : Nat) (s : RouterState) (path : Option String)
    (opts : NavOptions) (env : NavEnv) (h : s.isNavigating = true) :
    navigate fuel s path opts env = (false, s, ({} : NavTrace)) := by
  cases fuel with
  | zero => rfl
  | succ n => simp [navigate, h]

/-- Route-not-found recovery (router.js lines 136-138, 588-600) as the code
actually behaves: whatever `findSimilarRoute` produces, the recursive
fallback `navigate` issued by `handleNotFound` runs while `isNavigating` is
still `true`, so it is rejected by the re-entrancy guard and the whole call
returns `false` with the state unchanged. -/
theorem navigate_notFound (fuel : Nat) (s : RouterState) (path : Option String)
    (opts : NavOptions) (env : NavEnv)
    (h1 : s.isNavigating = false)
    (h2 : mapGet s.routes (normalizePath s.defaultRoute path) = none) :
    (navigate (fuel + 1) s path opts env).1 = false ∧
    (navigate (fuel + 1) s path opts env).2.1 = s := by
  have hb : ∀ p, navigate fuel { s with isNavigating := true } p {} env
      = (false, { s with isNavigating := true }, ({} : NavTrace)) :=
    fun p => navigate_busy fuel _ p {} env rfl
  simp only [navigate, h1, Bool.false_eq_true, if_false]
  simp only [navigateTry, h2, handleNotFound]
  cases path with
  | none =>
    by_cases hr : s.routes.isEmpty
    · simp [handleNotFound, hr, hb, setNavigatingFalse_eq s h1]
    · simp [handleNotFound, hr, setNavigatingFalse_eq s h1]
  | some p =>
    cases hf : findSimilarRoute (s.routes.map Prod.fst) p with
    | some similar => simp [handleNotFound, hf, hb, setNavigatingFalse_eq s h1]
    | none => simp [handleNotFound, hf, hb, setNavigatingFalse_eq s h1]
/-- C2: for every `navigate(path, options)` call starting from the Idle
state — whether it succeeds, is vetoed by a listener or guard, hits a
missing route, or an exception is raised at any of the navigation steps
(injected via `NavEnv.throwAt`, with callback exceptions covered by the
`CbOutcome`/`handlerThrows` oracles) — the `finally`-equivalent leaves
`isNavigating` false when the call completes. -/
theorem navigate_always_returns_to_idle (fuel : Nat) (s : RouterState)
    (path : Option String) (opts : NavOptions) (env : NavEnv)
    (h : s.isNavigating = false) :
    ((navigate fuel s path opts env).2.1).isNavigating = false := by
  cases fuel with
  | zero => simpa using h
  | succ n => simp [navigate, h]

/-- Witness: a concrete completed navigation ends with `isNavigating` false. -/
theorem navigate_always_returns_to_idle_witness :
    demoRouter.isNavigating = false ∧
    ((navigate 2 demoRouter (some "about") {} {}).2.1).isNavigating = false :=
  ⟨by decide, navigate_always_returns_to_idle 2 demoRouter (some "about") {} {} (by decide)⟩

/-- C3: a `navigate` call issued while a navigation is in flight
(`isNavigating = true`) returns `false` and leaves the whole controller
state — `currentRoute`, `previousRoute`, `history`, `routes` and all other
fields — exactly as it was, with no DOM effects. -/
theorem navigate_while_navigating_rejected (fuel : Nat) (s : RouterState)
    (path : Option String) (opts : NavOptions) (env : NavEnv)
    (h : s.isNavigating = true) :
    navigate fuel s path opts env = (false, s, ({} : NavTrace)) :=
  navigate_busy fuel s path opts env h

/-- Witness: a concrete re-entrant call is rejected without any change. -/
theorem navigate_while_navigating_rejected_witness :
    demoBusyRouter.isNavigating = true ∧
    navigate 2 demoBusyRouter (some "about") {} {} = (false, demoBusyRouter, ({} : NavTrace)) :=
  ⟨by decide, navigate_while_navigating_rejected 2 demoBusyRouter (some "about") {} {} (by decide)⟩
/-- Projection fact: `addToHistory` only touches the `history` field. -/
theorem addToHistory_currentRoute (s : RouterState) (path : String) (route : Route) (now : Nat) :
    (addToHistory s path route now).currentRoute = s.currentRoute := by
  unfold addToHistory
  split
  · rfl
  · rfl

/-- C9: `normalizePath` maps every falsy path argument — `null`/`undefined`
(modelled by `none`) and the empty string — to the configured default
route, so a `navigate` call with such an argument targets the default
route rather than failing: when the default route is registered and
nothing vetoes, the call succeeds and ends with `currentRoute` equal to the
default route. -/
theorem normalizePath_falsy_yields_default :
    (∀ d : String, normalizePath d none = d) ∧
    (∀ d : String, normalizePath d (some "") = d) ∧
    (∀ (fuel : Nat) (s : RouterState) (opts : NavOptions) (env : NavEnv) (route : Route)
       (p : Option String),
      s.isNavigating = false →
      mapGet s.routes s.defaultRoute = some route →
      runBeforeListeners env.beforeListeners = true →
      (route.hasBeforeEnter = true → runGuard env.beforeEnterOutcome = true) →
      env.throwAt = none →
      p = none ∨ p = some "" →
      (navigate (fuel + 1) s p opts env).1 = true ∧
      (navigate (fuel + 1) s p opts env).2.1.currentRoute = some s.defaultRoute) := by
  refine ⟨fun d => rfl, fun d => rfl, ?_⟩
  intro fuel s opts env route p h1 h2 h3 h4 h5 hp
  have hnorm : normalizePath s.defaultRoute p = s.defaultRoute := by
    rcases hp with rfl | rfl <;> rfl
  have hguard : ¬(route.hasBeforeEnter = true ∧ runGuard env.beforeEnterOutcome = false) := by
    rintro ⟨hb, hg⟩
    rw [h4 hb] at hg
    simp at hg
  simp only [navigate, h1, Bool.false_eq_true, if_false]
  simp only [navigateTry, hnorm, h2]
  by_cases hc : s.currentRoute = some s.defaultRoute ∧ opts.force = false
  · simp [navigateFound, hc, hc.1]
  · simp only [navigateFound, hc, if_false]
    simp [navigateSteps, addToHistory_currentRoute, trackNavigation, h3, hguard, h5]

/-- Witness: `navigate(null)` on a router with the default route registered
succeeds and lands on the default route. -/
theorem normalizePath_falsy_yields_default_witness :
    (navigate 2 demoRouter none {} {}).1 = true ∧
    (navigate 2 demoRouter none {} {}).2.1.currentRoute = some demoRouter.defaultRoute :=
  normalizePath_falsy_yields_default.2.2 1 demoRouter {} {} demoHomeRoute none
    (by decide) (by decide) rfl (by decide) rfl (Or.inl rfl)

/-- C4 (amended): a navigation vetoed by a global before-listener or by the
route `beforeEnter` guard returns `false` with `currentRoute`, `history`,
`routes` and the metrics unchanged, the handler not invoked and no URL
update — but `previousRoute` has already been overwritten with the current
route (router.js line 149 runs before the listeners), so the resulting
state is exactly `{ s with previousRoute := s.currentRoute }`. -/
theorem guard_veto_aborts_navigation (fuel : Nat) (s : RouterState) (path : Option String)
    (opts : NavOptions) (env : NavEnv) (route : Route)
    (h1 : s.isNavigating = false)
    (h2 : mapGet s.routes (normalizePath s.defaultRoute path) = some route)
    (h3 : ¬(s.currentRoute = some (normalizePath s.defaultRoute path) ∧ opts.force = false))
    (h4 : runBeforeListeners env.beforeListeners = false ∨
          (route.hasBeforeEnter = true ∧ runGuard env.beforeEnterOutcome = false)) :
    navigate (fuel + 1) s path opts env =
      (false, { s with previousRoute := s.currentRoute }, ({} : NavTrace)) := by
  simp only [navigate, h1, Bool.false_eq_true, if_false]
  simp only [navigateTry, h2, navigateFound]
  rw [if_neg h3]
  by_cases hL : runBeforeListeners env.beforeListeners = false
  · simp [hL, h1]
  · have hG : route.hasBeforeEnter = true ∧ runGuard env.beforeEnterOutcome = false := by
      rcases h4 with h4 | h4
      · exact absurd h4 hL
      · exact h4
    simp [hL, hG.1, hG.2, h1]

/-- Witness: a concrete vetoed navigation aborts as described. -/
theorem guard_veto_aborts_navigation_witness :
    navigate 2 demoAboutRouter (some "contact") {} { beforeListeners := [CbOutcome.retFalse] } =
      (false, { demoAboutRouter with previousRoute := demoAboutRouter.currentRoute },
        ({} : NavTrace)) :=
  guard_veto_aborts_navigation 1 demoAboutRouter (some "contact") {}
    { beforeListeners := [CbOutcome.retFalse] } demoContactRoute
    (by decide) (by decide) (by decide) (Or.inl rfl)

/-- Counterexample to C4 as stated: a vetoed navigation is not free of state
change — on a router whose `previousRoute` is `home` and `currentRoute` is
`about`, a before-listener veto of `navigate("contact")` leaves
`previousRoute` overwritten to `about`. -/
theorem guard_veto_changes_previousRoute :
    demoAboutRouter.previousRoute = some "home" ∧
    (navigate 2 demoAboutRouter (some "contact") {}
        { beforeListeners := [CbOutcome.retFalse] }).2.1.previousRoute = some "about" ∧
    (navigate 2 demoAboutRouter (some "contact") {}
        { beforeListeners := [CbOutcome.retFalse] }).2.1 ≠ demoAboutRouter := by
  decide
/-- C5 (amended): navigating to the current route — provided it is still
present in the route table — without a force flag is a no-op returning
success: the state is returned exactly as it was (router.js lines 141-146),
so history length, `currentPath`, `previousPath` and every other field are
unchanged and no duplicate history entry is added. -/
theorem navigate_same_route_noop (fuel : Nat) (s : RouterState) (path : Option String)
    (opts : NavOptions) (env : NavEnv) (route : Route)
    (h1 : s.isNavigating = false)
    (h2 : mapGet s.routes (normalizePath s.defaultRoute path) = some route)
    (h3 : s.currentRoute = some (normalizePath s.defaultRoute path))
    (h4 : opts.force = false) :
    navigate (fuel + 1) s path opts env = (true, s, ({} : NavTrace)) := by
  simp only [navigate, h1, Bool.false_eq_true, if_false]
  simp only [navigateTry, h2, navigateFound]
  rw [if_pos]
  · refine Prod.ext rfl (Prod.ext ?_ rfl)
    exact setNavigatingFalse_eq s h1
  · exact ⟨h3, h4⟩

/-- Witness: repeating `navigate("home")` on a router already on `home` is a
successful no-op. -/
theorem navigate_same_route_noop_witness :
    navigate 2 demoHomeRouter (some "home") {} {} = (true, demoHomeRouter, ({} : NavTrace)) :=
  navigate_same_route_noop 1 demoHomeRouter (some "home") {} {} demoHomeRoute
    (by decide) (by decide) (by decide) rfl

/-- Counterexample to C5 as stated: when the current route has meanwhile been
removed from the route table, re-navigating to it is not a successful no-op
— the lookup fails, `handleNotFound` takes over, and the call returns
`false` instead of the claimed `true`. -/
theorem navigate_same_route_unregistered_fails :
    demoRemovedRouter.currentRoute = some "home" ∧
    demoRemovedRouter.isNavigating = false ∧
    (navigate 2 demoRemovedRouter (some "home") {} {}).1 = false := by
  decide
/-- Similarity of the typo `homee` against `home`: edit distance 1 of 5. -/
theorem sim_homee_home : calculateSimilarity "homee" "home" = 4 / 5 := by
  have l1 : "homee".length = 5 := by decide
  have l2 : "home".length = 4 := by decide
  have e : calculateEditDistance "homee" "home" = 1 := by decide
  simp only [calculateSimilarity, l1, l2, e]
  norm_num [l1, l2, e]

/-- Similarity of `homee` against `about`: edit distance 5 of 5. -/
theorem sim_homee_about : calculateSimilarity "homee" "about" = 0 := by
  have l1 : "homee".length = 5 := by decide
  have l2 : "about".length = 5 := by decide
  have e : calculateEditDistance "about" "homee" = 5 := by decide
  simp only [calculateSimilarity, l1, l2, e]
  norm_num [l1, l2, e]

/-- Similarity of `homee` against `contact`: edit distance 6 of 7. -/
theorem sim_homee_contact : calculateSimilarity "homee" "contact" = 1 / 7 := by
  have l1 : "homee".length = 5 := by decide
  have l2 : "contact".length = 7 := by decide
  have e : calculateEditDistance "contact" "homee" = 6 := by decide
  simp only [calculateSimilarity, l1, l2, e]
  norm_num [l1, l2, e]

/-- Similarity of the typo `abuot` against `home`: edit distance 5 of 5. -/
theorem sim_abuot_home : calculateSimilarity "abuot" "home" = 0 := by
  have l1 : "abuot".length = 5 := by decide
  have l2 : "home".length = 4 := by decide
  have e : calculateEditDistance "abuot" "home" = 5 := by decide
  simp only [calculateSimilarity, l1, l2, e]
  norm_num [l1, l2, e]

/-- Similarity of the typo `abuot` against `about`: the transposition costs
two Levenshtein edits, not one, so the similarity is 0.6, not 0.8. -/
theorem sim_abuot_about : calculateSimilarity "abuot" "about" = 3 / 5 := by
  have l1 : "abuot".length = 5 := by decide
  have l2 : "about".length = 5 := by decide
  have e : calculateEditDistance "about" "abuot" = 2 := by decide
  simp only [calculateSimilarity, l1, l2, e]
  norm_num [l1, l2, e]

/-- Similarity of `abuot` against `contact`: edit distance 6 of 7. -/
theorem sim_abuot_contact : calculateSimilarity "abuot" "contact" = 1 / 7 := by
  have l1 : "abuot".length = 5 := by decide
  have l2 : "contact".length = 7 := by decide
  have e : calculateEditDistance "contact" "abuot" = 6 := by decide
  simp only [calculateSimilarity, l1, l2, e]
  norm_num [l1, l2, e]

/-- Fuzzy match of `homee` over the demo route table: `home` scores 0.8 and
is selected. -/
theorem findSimilarRoute_homee :
    findSimilarRoute ["home", "about", "contact"] "homee" = some "home" := by
  simp only [findSimilarRoute, findSimilarRouteGo, sim_homee_home, sim_homee_about,
    sim_homee_contact]
  norm_num

/-- Fuzzy match of `abuot` over the demo route table: the best score is 0.6,
which does not exceed the strict 0.6 threshold, so no route qualifies. -/
theorem findSimilarRoute_abuot :
    findSimilarRoute ["home", "about", "contact"] "abuot" = none := by
  simp only [findSimilarRoute, findSimilarRouteGo, sim_abuot_home, sim_abuot_about,
    sim_abuot_contact]
  norm_num
/-- C1 (code evaluated at the failing input): with `home`, `about`,
`contact` registered and the router idle on `about`, `navigate("homee")`
fuzzy-matches `home` with similarity 0.8 — yet the call returns `false`
and changes nothing, because the redirect that `handleNotFound` issues
(router.js lines 595, 599) runs while `isNavigating` is still `true` and
is rejected by the re-entrancy guard on line 124.  Neither the
similar-route redirect nor the default-route fallback can ever complete. -/
theorem notFound_fallback_rejected_by_guard :
    findSimilarRoute (demoAboutRouter.routes.map Prod.fst) "homee" = some "home" ∧
    (navigate 2 demoAboutRouter (some "homee") {} {}).1 = false ∧
    (navigate 2 demoAboutRouter (some "homee") {} {}).2.1 = demoAboutRouter := by
  have hkeys : demoAboutRouter.routes.map Prod.fst = ["home", "about", "contact"] := by decide
  have h := navigate_notFound 1 demoAboutRouter (some "homee") {} {} (by decide) (by decide)
  refine ⟨?_, h.1, h.2⟩
  rw [hkeys]
  exact findSimilarRoute_homee

/-- Counterexample to C8 as stated: with exactly `home`, `about`, `contact`
registered, `navigate("abuot")` does not redirect to `about` — the call
returns `false` and `currentRoute` stays untouched — and the similarity of
`abuot` to `about` is not the claimed 0.8. -/
theorem navigate_abuot_does_not_redirect :
    (navigate 2 demoRouter (some "abuot") {} {}).1 = false ∧
    (navigate 2 demoRouter (some "abuot") {} {}).2.1.currentRoute = none ∧
    calculateSimilarity "abuot" "about" ≠ 4 / 5 := by
  have h := navigate_notFound 1 demoRouter (some "abuot") {} {} (by decide) (by decide)
  refine ⟨h.1, ?_, ?_⟩
  · rw [h.2]
    decide
  · rw [sim_abuot_about]
    norm_num

/-- C8 (amended): the transposition in `abuot` costs two Levenshtein edits,
so the similarity to `about` is (5-2)/5 = 0.6, which does not exceed the
strict `> 0.6` threshold of `findSimilarRoute`; no route qualifies, and the
default-route fallback navigation is itself rejected by the re-entrancy
guard, so `navigate("abuot")` returns `false` with the state unchanged. -/
theorem navigate_abuot_no_route_qualifies :
    calculateEditDistance "about" "abuot" = 2 ∧
    calculateSimilarity "abuot" "about" = 3 / 5 ∧
    ¬((3 : ℚ) / 5 > 6 / 10) ∧
    findSimilarRoute (demoRouter.routes.map Prod.fst) "abuot" = none ∧
    (navigate 2 demoRouter (some "abuot") {} {}).1 = false ∧
    (navigate 2 demoRouter (some "abuot") {} {}).2.1 = demoRouter := by
  have hkeys : demoRouter.routes.map Prod.fst = ["home", "about", "contact"] := by decide
  have h := navigate_notFound 1 demoRouter (some "abuot") {} {} (by decide) (by decide)
  refine ⟨by decide, sim_abuot_about, by norm_num, ?_, h.1, h.2⟩
  rw [hkeys]
  exact findSimilarRoute_abuot
/-- Projection fact: `trackNavigation` only touches the metrics field. -/
theorem trackNavigation_history (s : RouterState) (path : String) (duration now : Nat) :
    (trackNavigation s path duration now).history = s.history := rfl

/-- Bound preservation for `addToHistory`: pushing into a list at or below
the bound, with a single shift when it overflows, keeps it at or below
the bound. -/
theorem addToHistory_length_le (s : RouterState) (path : String) (route : Route) (now : Nat)
    (h : s.history.length ≤ maxHistoryLength) :
    (addToHistory s path route now).history.length ≤ maxHistoryLength := by
  simp only [addToHistory]
  split
  · exact h
  · split
    next hgt =>
      simp only [List.length_tail, List.length_append, List.length_cons, List.length_nil]
      omega
    next hle =>
      simp only [List.length_append, List.length_cons, List.length_nil] at *
      omega

/-- Bound preservation through the later navigation steps. -/
theorem navigateSteps_history_le (s1 : RouterState) (route : Route) (normalizedPath : String)
    (opts : NavOptions) (env : NavEnv)
    (h : s1.history.length ≤ maxHistoryLength) :
    ((navigateSteps s1 route normalizedPath opts env).2.1).history.length ≤ maxHistoryLength := by
  simp only [navigateSteps]
  split
  · exact h
  · split
    · exact addToHistory_length_le _ _ _ _ h
    · split
      · exact addToHistory_length_le _ _ _ _ h
      · split
        · exact addToHistory_length_le _ _ _ _ h
        · split
          · exact addToHistory_length_le _ _ _ _ h
          · split
            · exact addToHistory_length_le _ _ _ _ h
            · split
              · exact addToHistory_length_le _ _ _ _ h
              · split
                · exact addToHistory_length_le _ _ _ _ h
                · exact addToHistory_length_le _ _ _ _ h

/-- Bound preservation through the found-route part of the body. -/
theorem navigateFound_history_le (s : RouterState) (route : Route) (normalizedPath : String)
    (opts : NavOptions) (env : NavEnv)
    (h : s.history.length ≤ maxHistoryLength) :
    ((navigateFound s route normalizedPath opts env).2.1).history.length ≤ maxHistoryLength := by
  simp only [navigateFound]
  split
  · exact h
  · split
    · exact h
    · split
      · exact h
      · exact navigateSteps_history_le _ _ _ _ _ h

/-- Bound preservation through the not-found handler. -/
theorem handleNotFound_history_le
    (nav : RouterState → Option String → NavOptions → NavEnv → Bool × RouterState × NavTrace)
    (s : RouterState) (path : Option String) (env : NavEnv)
    (hnav : ∀ s' p o e, s'.history.length ≤ maxHistoryLength →
      ((nav s' p o e).2.1).history.length ≤ maxHistoryLength)
    (h : s.history.length ≤ maxHistoryLength) :
    ((handleNotFound nav s path env).2.1).history.length ≤ maxHistoryLength := by
  simp only [handleNotFound]
  split
  · split
    · exact hnav _ _ _ _ h
    · exact h
  · split
    · exact hnav _ _ _ _ h
    · exact hnav _ _ _ _ h

/-- Bound preservation through the whole body of `navigate`. -/
theorem navigateTry_history_le
    (nav : RouterState → Option String → NavOptions → NavEnv → Bool × RouterState × NavTrace)
    (s : RouterState) (path : Option String) (opts : NavOptions) (env : NavEnv)
    (hnav : ∀ s' p o e, s'.history.length ≤ maxHistoryLength →
      ((nav s' p o e).2.1).history.length ≤ maxHistoryLength)
    (h : s.history.length ≤ maxHistoryLength) :
    ((navigateTry nav s path opts env).2.1).history.length ≤ maxHistoryLength := by
  simp only [navigateTry]
  split
  · exact handleNotFound_history_le _ _ _ _ hnav h
  · exact navigateFound_history_le _ _ _ _ _ h

/-- Bound preservation for full `navigate` calls, by induction on the fuel. -/
theorem navigate_history_le (fuel : Nat) :
    ∀ (s : RouterState) (path : Option String) (opts : NavOptions) (env : NavEnv),
      s.history.length ≤ maxHistoryLength →
      ((navigate fuel s path opts env).2.1).history.length ≤ maxHistoryLength := by
  induction fuel with
  | zero => intro s p o e h; exact h
  | succ n ih =>
    intro s p o e h
    simp only [navigate]
    split
    · exact h
    · exact navigateTry_history_le _ _ _ _ _ (fun s' p' o' e' h' => ih s' p' o' e' h') h
/-- C6: the history list never exceeds the 50-entry bound — through
`addToHistory` itself and through any `navigate` call, hence through any
sequence of operations, since no other operation grows the history; when an
entry is appended to a full list the oldest (front) entry is evicted first;
and an entry whose path equals the most recent entry is not appended. -/
theorem history_bounded_fifo_nodup :
    (∀ (s : RouterState) (path : String) (route : Route) (now : Nat),
      s.history.length ≤ maxHistoryLength →
      (addToHistory s path route now).history.length ≤ maxHistoryLength) ∧
    (∀ (s : RouterState) (path : String) (route : Route) (now : Nat),
      s.history.length = maxHistoryLength →
      ¬ s.history.getLast?.map HistoryEntry.path = some path →
      (addToHistory s path route now).history =
        s.history.tail ++
          [({ path := path, route := route.title, timestamp := now } : HistoryEntry)]) ∧
    (∀ (s : RouterState) (path : String) (route : Route) (now : Nat),
      s.history.getLast?.map HistoryEntry.path = some path →
      addToHistory s path route now = s) ∧
    (∀ (fuel : Nat) (s : RouterState) (path : Option String) (opts : NavOptions) (env : NavEnv),
      s.history.length ≤ maxHistoryLength →
      ((navigate fuel s path opts env).2.1).history.length ≤ maxHistoryLength) := by
  refine ⟨addToHistory_length_le, ?_, ?_, fun fuel => navigate_history_le fuel⟩
  · intro s path route now hlen hdup
    simp only [addToHistory]
    rw [if_neg hdup, if_pos]
    · cases hH : s.history with
      | nil =>
        rw [hH] at hlen
        exact absurd hlen (by decide)
      | cons a t => rfl
    · simp only [List.length_append, List.length_cons, List.length_nil, hlen]
      omega
  · intro s path route now hdup
    simp only [addToHistory]
    rw [if_pos hdup]

/-- Witness: appending a fresh path to an exactly-full history keeps the
bound and evicts the oldest entry. -/
theorem history_bounded_fifo_nodup_witness :
    (addToHistory demoFullHistoryRouter "new" demoHomeRoute 7).history.length
        ≤ maxHistoryLength ∧
    (addToHistory demoFullHistoryRouter "new" demoHomeRoute 7).history =
      demoFullHistoryRouter.history.tail ++
        [({ path := "new", route := "Home", timestamp := 7 } : HistoryEntry)] :=
  ⟨history_bounded_fifo_nodup.1 demoFullHistoryRouter "new" demoHomeRoute 7 (by decide),
   history_bounded_fifo_nodup.2.1 demoFullHistoryRouter "new" demoHomeRoute 7
     (by decide) (by decide)⟩
/-- A key just written by `mapSet` is present afterwards. -/
theorem mapHas_mapSet_self {α : Type} (m : List (String × α)) (k : String) (v : α) :
    mapHas (mapSet m k v) k = true := by
  simp only [mapSet, mapHas]
  split
  next hin =>
    simp only [List.any_eq_true] at hin ⊢
    obtain ⟨p, hp, hpk⟩ := hin
    refine ⟨(k, v), List.mem_map.2 ⟨p, hp, ?_⟩, by simp⟩
    simp only [decide_eq_true_eq] at hpk
    simp [hpk]
  next hout =>
    simp

/-- C7 (amended): immediately after `addRoute(path, handler, options)`,
`hasRoute(path)` is true for the same argument, provided the path is
non-empty and carries no leading or trailing whitespace — `addRoute` keys
by `toLowerCase()` alone while `hasRoute` normalizes with
`toLowerCase().trim()`, so the two keys agree exactly under that proviso. -/
theorem hasRoute_after_addRoute (s : RouterState) (path : String) (opts : RouteOptions)
    (h1 : path ≠ "")
    (h2 : jsTrim (jsToLower path) = jsToLower path) :
    hasRoute (addRoute s path opts) (some path) = true := by
  have h3 : ∀ d : String, normalizePath d (some path) = jsToLower path := by
    intro d
    simp only [normalizePath, if_neg h1, h2]
  simp only [hasRoute, h3, addRoute]
  exact mapHas_mapSet_self _ _ _

/-- Witness: a clean path is found right after registration. -/
theorem hasRoute_after_addRoute_witness :
    "about" ≠ "" ∧ jsTrim (jsToLower "about") = jsToLower "about" ∧
    hasRoute (addRoute initialRouter "about" {}) (some "about") = true :=
  ⟨by decide, by decide,
   hasRoute_after_addRoute initialRouter "about" {} (by decide) (by decide)⟩

/-- Counterexample to C7 as stated: for the path `"home "` (trailing
space), `addRoute` stores the key `"home "` but `hasRoute` looks up the
trimmed key `"home"`, so the route just added is not found. -/
theorem hasRoute_after_addRoute_trailing_space :
    hasRoute (addRoute initialRouter "home " {}) (some "home ") = false := by
  decide
/-- Distance to the empty string is the length. -/
theorem lev_nil_right (xs : List Char) : lev xs [] = xs.length := by
  induction xs with
  | nil => rfl
  | cons x xs ih =>
    show levCons x (lev xs) [] = xs.length + 1
    simp [levCons, ih]

/-- Unfolding of the recurrence at two cons cells, exactly the inner cell
of the DP matrix (router.js lines 650-658). -/
theorem lev_cons_cons (x y : Char) (xs ys : List Char) :
    lev (x :: xs) (y :: ys) =
      if x = y then lev xs ys
      else min (lev xs ys + 1) (min (lev (x :: xs) ys + 1) (lev xs (y :: ys) + 1)) := rfl

/-- Levenshtein distance is symmetric. -/
theorem lev_symm (xs : List Char) : ∀ ys : List Char, lev xs ys = lev ys xs := by
  induction xs with
  | nil =>
    intro ys
    show ys.length = lev ys []
    rw [lev_nil_right]
  | cons x xs ih =>
    intro ys
    induction ys with
    | nil =>
      rw [lev_nil_right]
      rfl
    | cons y ys ih2 =>
      rw [lev_cons_cons, lev_cons_cons]
      by_cases hxy : x = y
      · rw [if_pos hxy, if_pos hxy.symm, ih ys]
      · rw [if_neg hxy, if_neg (fun h => hxy h.symm)]
        rw [← ih ys, ← ih (y :: ys), ← ih2]
        omega

/-- Levenshtein distance never exceeds the longer length. -/
theorem lev_le_max (xs : List Char) : ∀ ys : List Char,
    lev xs ys ≤ max xs.length ys.length := by
  induction xs with
  | nil =>
    intro ys
    show ys.length ≤ max ([] : List Char).length ys.length
    simp
  | cons x xs ih =>
    intro ys
    induction ys with
    | nil =>
      rw [lev_nil_right]
      simp
    | cons y ys ih2 =>
      rw [lev_cons_cons]
      by_cases hxy : x = y
      · rw [if_pos hxy]
        have h1 := ih ys
        simp only [List.length_cons] at *
        omega
      · rw [if_neg hxy]
        have h1 := ih ys
        have h2 := ih (y :: ys)
        have h3 := ih2
        simp only [List.length_cons] at *
        omega

/-- The similarity expression for a fixed longer/shorter split lies in the
unit interval. -/
theorem simExprBounds (L S : String) (hle : S.length ≤ L.length) :
    0 ≤ (if L.length = 0 then (1 : ℚ)
         else ((L.length : ℚ) - (lev S.data L.data : ℚ)) / (L.length : ℚ)) ∧
    (if L.length = 0 then (1 : ℚ)
     else ((L.length : ℚ) - (lev S.data L.data : ℚ)) / (L.length : ℚ)) ≤ 1 := by
  by_cases h0 : L.length = 0
  · rw [if_pos h0]
    norm_num
  · rw [if_neg h0]
    have e1 : S.data.length = S.length := rfl
    have e2 : L.data.length = L.length := rfl
    have hlev : lev S.data L.data ≤ L.length := by
      have hm := lev_le_max S.data L.data
      omega
    have hlevq : (lev S.data L.data : ℚ) ≤ (L.length : ℚ) := by exact_mod_cast hlev
    have hpos : (0 : ℚ) < (L.length : ℚ) := by
      exact_mod_cast Nat.pos_of_ne_zero h0
    constructor
    · apply div_nonneg
      · linarith
      · linarith
    · rw [div_le_one hpos]
      have : (0 : ℚ) ≤ (lev S.data L.data : ℚ) := by positivity
      linarith

/-- C10: `calculateSimilarity` is symmetric in its two arguments, and its
value always lies between 0 and 1 inclusive. -/
theorem calculateSimilarity_symm_bounded (a b : String) :
    calculateSimilarity a b = calculateSimilarity b a ∧
    0 ≤ calculateSimilarity a b ∧ calculateSimilarity a b ≤ 1 := by
  refine ⟨?_, ?_⟩
  · simp only [calculateSimilarity, calculateEditDistance]
    rcases Nat.lt_trichotomy a.length b.length with h | h | h
    · have c1 : ¬ (a.length > b.length) := by omega
      have c2 : b.length > a.length := h
      simp only [if_neg c1, if_pos c2]
    · have c1 : ¬ (a.length > b.length) := by omega
      have c2 : ¬ (b.length > a.length) := by omega
      simp only [if_neg c1, if_neg c2]
      rw [h, lev_symm a.data b.data]
    · have c1 : a.length > b.length := h
      have c2 : ¬ (b.length > a.length) := by omega
      simp only [if_pos c1, if_neg c2]
  · simp only [calculateSimilarity, calculateEditDistance]
    by_cases h : a.length > b.length
    · rw [if_pos h, if_pos h]
      exact simExprBounds a b (le_of_lt h)
    · rw [if_neg h, if_neg h]
      exact simExprBounds b a (le_of_not_lt h)
